import Mathlib

/-!
Verification development for the interactive video-cropping tool
(`crop_video.py`).  The Python source is shallowly embedded below:
coordinates are rationals (`ℚ`) for the real-valued canvas arithmetic and
integers (`ℤ`) for pixel indices; frames are lists of pixel rows; the
cropping loop of `_do_crop` is an explicit fold over the list of frames
the capture yields.
-/

namespace CropVideo

/-- Python `int(q)`: truncation toward zero. -/
def truncQ (q : ℚ) : ℤ := if 0 ≤ q then ⌊q⌋ else -⌊-q⌋

/-- Python 3 `round` on an exact value: round half to even. -/
def pyRound (q : ℚ) : ℤ :=
  let f := ⌊q⌋
  let r := q - (f : ℚ)
  if r < 1 / 2 then f
  else if 1 / 2 < r then f + 1
  else if f % 2 = 0 then f else f + 1

/-- Round half away from zero: the convention the spec pins for
`FrameSampler` (spec section 4.3 / section 8), embedded for comparison with
the code.  Modelled from the spec, not from the source. -/
def roundHalfAwayFromZero (q : ℚ) : ℤ :=
  if 0 ≤ q then ⌊q + 1 / 2⌋ else -⌊-q + 1 / 2⌋

/-- The sampling interval `max(1, round(original_fps / target_fps))` with
`target_fps = 10`, from `_do_crop`. -/
def frameInterval (originalFps : ℚ) : ℤ :=
  max 1 (pyRound (originalFps / 10))

/-- The display transform of the preview: `self.scale_factor`,
`self.offset_x`, `self.offset_y`. -/
structure DisplayTransform where
  scale : ℚ
  offsetX : ℚ
  offsetY : ℚ

/-- The map `_canvas_to_image`: canvas coordinates to source-frame coordinates.
`ix = (cx - offset_x) / scale`, clamped into `[0, w]`, then `int(...)`. -/
def canvasToImage (t : DisplayTransform) (w h : ℕ) (cx cy : ℚ) : ℤ × ℤ :=
  (truncQ (max 0 (min ((cx - t.offsetX) / t.scale) (w : ℚ))),
   truncQ (max 0 (min ((cy - t.offsetY) / t.scale) (h : ℚ))))

/-- The map `_image_to_canvas`: source-frame coordinates back to canvas
coordinates, `cx = ix * scale + offset_x`, no clamping. -/
def imageToCanvas (t : DisplayTransform) (ix iy : ℤ) : ℚ × ℚ :=
  ((ix : ℚ) * t.scale + t.offsetX, (iy : ℚ) * t.scale + t.offsetY)

/-- A selection rectangle `(x1, y1, x2, y2)` in source-frame pixels
(`self.crop_rect`). -/
structure Rect where
  x1 : ℤ
  y1 : ℤ
  x2 : ℤ
  y2 : ℤ
deriving DecidableEq

/-- The even-dimension normalization at the top of `_do_crop`:
`x2`/`y2` are decremented when the corresponding dimension is odd. -/
def normalizeRect (r : Rect) : Rect :=
  { x1 := r.x1
    y1 := r.y1
    x2 := if (r.x2 - r.x1) % 2 ≠ 0 then r.x2 - 1 else r.x2
    y2 := if (r.y2 - r.y1) % 2 ≠ 0 then r.y2 - 1 else r.y2 }

/-- Status text shown by `_on_mouse_up`. -/
inductive UiMessage where
  | tooSmall
  | selectionInfo (x1 y1 x2 y2 width height : ℤ)
deriving DecidableEq

/-- Post-state of a mouse release: stored `self.crop_rect`, state of the
export control, and the info-label message. -/
structure MouseUpResult where
  cropRect : Option Rect
  exportEnabled : Bool
  message : UiMessage
deriving DecidableEq

/-- The handler `_on_mouse_up`: map anchor and release points to image coordinates,
order them, reject the selection when either dimension is below 10. -/
def onMouseUp (t : DisplayTransform) (w h : ℕ)
    (startX startY upX upY : ℚ) : MouseUpResult :=
  let p1 := canvasToImage t w h startX startY
  let p2 := canvasToImage t w h upX upY
  let x1 := min p1.1 p2.1
  let x2 := max p1.1 p2.1
  let y1 := min p1.2 p2.2
  let y2 := max p1.2 p2.2
  if x2 - x1 < 10 ∨ y2 - y1 < 10 then
    { cropRect := none, exportEnabled := false, message := .tooSmall }
  else
    { cropRect := some { x1 := x1, y1 := y1, x2 := x2, y2 := y2 }
      exportEnabled := true
      message := .selectionInfo x1 y1 x2 y2 (x2 - x1) (y2 - y1) }

/-- A decoded video frame: a list of pixel rows (3-channel pixel values are
irrelevant to the properties, so a pixel is a bare `ℕ`). -/
abbrev Frame := List (List ℕ)

/-- What `cv2.VideoCapture` yields for a given path: whether it opened, the
sequence of frames successive `cap.read()` calls return before the first
failed read, the container-reported `CAP_PROP_FRAME_COUNT` (as the `int`
the code takes of it) and the reported `CAP_PROP_FPS`. -/
structure Source where
  opened : Bool
  frames : List Frame
  reportedTotal : ℤ
  fps : ℚ

/-- The slice `frame[y1:y2, x1:x2]`: the pixel-rectangle slice of a kept frame.
All coordinates reaching this point are nonnegative, so the slice is
row-drop/take and column-drop/take. -/
def cropFrame (r : Rect) (f : Frame) : Frame :=
  ((f.drop r.y1.toNat).take (r.y2 - r.y1).toNat).map
    (fun row => (row.drop r.x1.toNat).take (r.x2 - r.x1).toNat)

/-- One progress update posted from the worker:
`pct = (frame_idx / total_frames) * 100` and the written-frame counter. -/
structure ProgressEvent where
  percent : ℚ
  framesWritten : ℕ
deriving DecidableEq

/-- The mutable locals of the `while True` loop in `_do_crop`. -/
structure LoopState where
  frameIdx : ℕ
  writtenFrames : ℕ
  writtenIdxs : List ℕ
  written : List Frame
  events : List ProgressEvent

/-- The `if frame_idx % frame_interval == 0` body: crop and write the
current frame. -/
def writeStep (rect : Rect) (interval : ℕ) (s : LoopState) (f : Frame) :
    LoopState :=
  if s.frameIdx % interval = 0 then
    { s with written := s.written ++ [cropFrame rect f]
             writtenIdxs := s.writtenIdxs ++ [s.frameIdx]
             writtenFrames := s.writtenFrames + 1 }
  else s

/-- The `if frame_idx % 30 == 0` progress update.  When the reported total
frame count is zero, `(frame_idx / total_frames) * 100` raises
`ZeroDivisionError` and the worker thread dies: the `Bool` flags that
crash. -/
def progressCheck (total : ℤ) (s : LoopState) : LoopState × Bool :=
  if s.frameIdx % 30 = 0 then
    if total = 0 then (s, true)
    else
      ({ s with events := s.events ++
          [{ percent := (s.frameIdx : ℚ) / (total : ℚ) * 100
             framesWritten := s.writtenFrames }] }, false)
  else (s, false)

/-- One iteration of the loop: optional write at the current index, then
`frame_idx += 1`, then the progress check at the incremented index. -/
def stepFrame (rect : Rect) (interval : ℕ) (total : ℤ) (s : LoopState)
    (f : Frame) : LoopState × Bool :=
  progressCheck total
    { writeStep rect interval s f with
        frameIdx := (writeStep rect interval s f).frameIdx + 1 }

/-- The `while True` loop: reads succeed for each listed frame, the first
failed read breaks the loop.  A `true` second component means the loop died
in the progress update. -/
def runLoop (rect : Rect) (interval : ℕ) (total : ℤ) :
    List Frame → LoopState → LoopState × Bool
  | [], s => (s, false)
  | f :: fs, s =>
    let r := stepFrame rect interval total s f
    if r.2 then r else runLoop rect interval total fs r.1

/-- How `_do_crop` terminates. -/
inductive CropOutcome where
  | sourceOpenMsg
  | sinkOpenMsg
  | crashed
  | done (writtenFrames : ℕ)
deriving DecidableEq

/-- Observable outcome of one `_do_crop` run.  `outputCreated` records
whether the destination writer was successfully opened (which creates the
output file); file creation on a failed writer open is left unmodelled
(`false`).  `doneFired` records whether `_on_crop_done` was scheduled. -/
structure CropResult where
  outcome : CropOutcome
  writerAttempted : Bool
  outputCreated : Bool
  writerSize : ℤ × ℤ
  written : List Frame
  writtenIdxs : List ℕ
  finalFrameIdx : ℕ
  events : List ProgressEvent
  doneFired : Bool

/-- The sampling loop of `_do_crop` run from its initial locals
(`frame_idx = 0`, `written_frames = 0`) over every frame the capture
yields, paired with the crash flag. -/
def cropRun (rect0 : Rect) (src : Source) : LoopState × Bool :=
  runLoop (normalizeRect rect0) (frameInterval src.fps).toNat
    src.reportedTotal src.frames
    { frameIdx := 0, writtenFrames := 0, writtenIdxs := [], written := []
      events := [] }

/-- The worker `_do_crop`: normalize the rectangle, open the capture, compute the
sampling interval, open the writer sized to the normalized crop, run the
sampling loop, then schedule the completion callback. -/
def doCrop (rect0 : Rect) (src : Source) (writerOpens : Bool) : CropResult :=
  if src.opened = false then
    { outcome := .sourceOpenMsg, writerAttempted := false
      outputCreated := false
      writerSize := ((normalizeRect rect0).x2 - (normalizeRect rect0).x1,
        (normalizeRect rect0).y2 - (normalizeRect rect0).y1)
      written := [], writtenIdxs := [], finalFrameIdx := 0
      events := [], doneFired := false }
  else if writerOpens = false then
    { outcome := .sinkOpenMsg, writerAttempted := true
      outputCreated := false
      writerSize := ((normalizeRect rect0).x2 - (normalizeRect rect0).x1,
        (normalizeRect rect0).y2 - (normalizeRect rect0).y1)
      written := [], writtenIdxs := [], finalFrameIdx := 0
      events := [], doneFired := false }
  else if (cropRun rect0 src).2 then
    { outcome := .crashed, writerAttempted := true
      outputCreated := true
      writerSize := ((normalizeRect rect0).x2 - (normalizeRect rect0).x1,
        (normalizeRect rect0).y2 - (normalizeRect rect0).y1)
      written := (cropRun rect0 src).1.written
      writtenIdxs := (cropRun rect0 src).1.writtenIdxs
      finalFrameIdx := (cropRun rect0 src).1.frameIdx
      events := (cropRun rect0 src).1.events
      doneFired := false }
  else
    { outcome := .done (cropRun rect0 src).1.writtenFrames
      writerAttempted := true, outputCreated := true
      writerSize := ((normalizeRect rect0).x2 - (normalizeRect rect0).x1,
        (normalizeRect rect0).y2 - (normalizeRect rect0).y1)
      written := (cropRun rect0 src).1.written
      writtenIdxs := (cropRun rect0 src).1.writtenIdxs
      finalFrameIdx := (cropRun rect0 src).1.frameIdx
      events := (cropRun rect0 src).1.events
      doneFired := true }

/-! ## Helper lemmas -/

lemma truncQ_of_nonneg {q : ℚ} (h : 0 ≤ q) : truncQ q = ⌊q⌋ := if_pos h

lemma clamp_bounds (q : ℚ) (n : ℕ) :
    0 ≤ truncQ (max 0 (min q (n : ℚ))) ∧
    truncQ (max 0 (min q (n : ℚ))) ≤ (n : ℤ) := by
  have h0 : (0 : ℚ) ≤ max 0 (min q (n : ℚ)) := le_max_left _ _
  refine ⟨?_, ?_⟩
  · rw [truncQ_of_nonneg h0]
    exact Int.floor_nonneg.mpr h0
  · rw [truncQ_of_nonneg h0]
    have hn : max 0 (min q (n : ℚ)) ≤ (n : ℚ) :=
      max_le (Nat.cast_nonneg n) (min_le_right _ _)
    calc ⌊max 0 (min q (n : ℚ))⌋ ≤ ⌊(n : ℚ)⌋ := Int.floor_le_floor hn
      _ = (n : ℤ) := Int.floor_natCast n

lemma roundtrip_coord (s c off : ℚ) (n : ℕ) (hs : 0 < s)
    (h0 : 0 ≤ (c - off) / s) (hn : (c - off) / s ≤ (n : ℚ)) :
    c - s < (truncQ (max 0 (min ((c - off) / s) (n : ℚ))) : ℚ) * s + off ∧
    (truncQ (max 0 (min ((c - off) / s) (n : ℚ))) : ℚ) * s + off ≤ c := by
  have hclamp : max 0 (min ((c - off) / s) (n : ℚ)) = (c - off) / s := by
    rw [min_eq_left hn, max_eq_right h0]
  rw [hclamp, truncQ_of_nonneg h0]
  have hceq : (c - off) / s * s = c - off := div_mul_cancel₀ _ (ne_of_gt hs)
  have h1 : ((⌊(c - off) / s⌋ : ℚ)) ≤ (c - off) / s := Int.floor_le _
  have h2 : (c - off) / s - 1 < ((⌊(c - off) / s⌋ : ℚ)) := Int.sub_one_lt_floor _
  have h3 : ((c - off) / s - 1) * s < (⌊(c - off) / s⌋ : ℚ) * s :=
    mul_lt_mul_of_pos_right h2 hs
  have h4 : (⌊(c - off) / s⌋ : ℚ) * s ≤ (c - off) / s * s :=
    mul_le_mul_of_nonneg_right h1 (le_of_lt hs)
  rw [sub_mul, one_mul, hceq] at h3
  rw [hceq] at h4
  constructor <;> linarith

lemma writeStep_frameIdx (rect : Rect) (interval : ℕ) (s : LoopState)
    (f : Frame) : (writeStep rect interval s f).frameIdx = s.frameIdx := by
  unfold writeStep; split <;> rfl

lemma writeStep_events (rect : Rect) (interval : ℕ) (s : LoopState)
    (f : Frame) : (writeStep rect interval s f).events = s.events := by
  unfold writeStep; split <;> rfl

lemma writeStep_writtenIdxs (rect : Rect) (interval : ℕ) (s : LoopState)
    (f : Frame) :
    (writeStep rect interval s f).writtenIdxs =
      s.writtenIdxs ++
        (if s.frameIdx % interval = 0 then [s.frameIdx] else []) := by
  unfold writeStep; split <;> simp

lemma writeStep_written (rect : Rect) (interval : ℕ) (s : LoopState)
    (f : Frame) :
    (writeStep rect interval s f).written =
      s.written ++
        (if s.frameIdx % interval = 0 then [cropFrame rect f] else []) := by
  unfold writeStep; split <;> simp

lemma writeStep_writtenFrames (rect : Rect) (interval : ℕ) (s : LoopState)
    (f : Frame) :
    (writeStep rect interval s f).writtenFrames =
      s.writtenFrames + (if s.frameIdx % interval = 0 then 1 else 0) := by
  unfold writeStep; split <;> simp

lemma progressCheck_fst_frameIdx (total : ℤ) (s : LoopState) :
    (progressCheck total s).1.frameIdx = s.frameIdx := by
  unfold progressCheck; split
  · split <;> rfl
  · rfl

lemma progressCheck_fst_writtenIdxs (total : ℤ) (s : LoopState) :
    (progressCheck total s).1.writtenIdxs = s.writtenIdxs := by
  unfold progressCheck; split
  · split <;> rfl
  · rfl

lemma progressCheck_fst_written (total : ℤ) (s : LoopState) :
    (progressCheck total s).1.written = s.written := by
  unfold progressCheck; split
  · split <;> rfl
  · rfl

lemma progressCheck_fst_writtenFrames (total : ℤ) (s : LoopState) :
    (progressCheck total s).1.writtenFrames = s.writtenFrames := by
  unfold progressCheck; split
  · split <;> rfl
  · rfl

lemma progressCheck_snd_of_total_ne (total : ℤ) (ht : total ≠ 0)
    (s : LoopState) : (progressCheck total s).2 = false := by
  unfold progressCheck; split <;> simp [ht]

lemma progressCheck_of_total_zero (s : LoopState) :
    progressCheck 0 s = (s, decide (s.frameIdx % 30 = 0)) := by
  unfold progressCheck; split
  · rename_i h
    simp [h]
  · rename_i h
    simp [h]

lemma stepFrame_fst_frameIdx (rect : Rect) (interval : ℕ) (total : ℤ)
    (s : LoopState) (f : Frame) :
    (stepFrame rect interval total s f).1.frameIdx = s.frameIdx + 1 := by
  unfold stepFrame
  rw [progressCheck_fst_frameIdx]
  simp [writeStep_frameIdx]

lemma stepFrame_fst_writtenIdxs (rect : Rect) (interval : ℕ) (total : ℤ)
    (s : LoopState) (f : Frame) :
    (stepFrame rect interval total s f).1.writtenIdxs =
      s.writtenIdxs ++
        (if s.frameIdx % interval = 0 then [s.frameIdx] else []) := by
  unfold stepFrame
  rw [progressCheck_fst_writtenIdxs]
  simp [writeStep_writtenIdxs]

lemma stepFrame_fst_written (rect : Rect) (interval : ℕ) (total : ℤ)
    (s : LoopState) (f : Frame) :
    (stepFrame rect interval total s f).1.written =
      s.written ++
        (if s.frameIdx % interval = 0 then [cropFrame rect f] else []) := by
  unfold stepFrame
  rw [progressCheck_fst_written]
  simp [writeStep_written]

lemma stepFrame_fst_writtenFrames (rect : Rect) (interval : ℕ) (total : ℤ)
    (s : LoopState) (f : Frame) :
    (stepFrame rect interval total s f).1.writtenFrames =
      s.writtenFrames + (if s.frameIdx % interval = 0 then 1 else 0) := by
  unfold stepFrame
  rw [progressCheck_fst_writtenFrames]
  simp [writeStep_writtenFrames]

lemma stepFrame_snd_of_total_ne (rect : Rect) (interval : ℕ) (total : ℤ)
    (ht : total ≠ 0) (s : LoopState) (f : Frame) :
    (stepFrame rect interval total s f).2 = false := by
  unfold stepFrame
  exact progressCheck_snd_of_total_ne total ht _

lemma stepFrame_of_total_zero (rect : Rect) (interval : ℕ) (s : LoopState)
    (f : Frame) :
    stepFrame rect interval 0 s f =
      ({ writeStep rect interval s f with
          frameIdx := s.frameIdx + 1 },
       decide ((s.frameIdx + 1) % 30 = 0)) := by
  unfold stepFrame
  rw [progressCheck_of_total_zero]
  simp [writeStep_frameIdx]

lemma runLoop_char (rect : Rect) (interval : ℕ) (total : ℤ) (ht : total ≠ 0)
    (fs : List Frame) :
    ∀ s : LoopState,
      (runLoop rect interval total fs s).2 = false ∧
      (runLoop rect interval total fs s).1.frameIdx =
        s.frameIdx + fs.length ∧
      (runLoop rect interval total fs s).1.writtenIdxs =
        s.writtenIdxs ++
          (List.range' s.frameIdx fs.length).filter
            (fun i => i % interval == 0) ∧
      (runLoop rect interval total fs s).1.writtenFrames =
        s.writtenFrames +
          ((List.range' s.frameIdx fs.length).filter
            (fun i => i % interval == 0)).length := by
  induction fs with
  | nil => intro s; exact ⟨rfl, by simp [runLoop], by simp [runLoop], by simp [runLoop]⟩
  | cons f fs ih =>
    intro s
    have hsnd := stepFrame_snd_of_total_ne rect interval total ht s f
    have hrl : runLoop rect interval total (f :: fs) s =
        runLoop rect interval total fs (stepFrame rect interval total s f).1 := by
      rw [runLoop, hsnd]
      simp
    obtain ⟨ih1, ih2, ih3, ih4⟩ := ih (stepFrame rect interval total s f).1
    rw [hrl]
    refine ⟨ih1, ?_, ?_, ?_⟩
    · rw [ih2, stepFrame_fst_frameIdx]
      simp [List.length_cons]
      omega
    · rw [ih3, stepFrame_fst_writtenIdxs, stepFrame_fst_frameIdx]
      simp only [List.length_cons]
      rw [List.range'_succ, List.filter_cons]
      by_cases hkeep : s.frameIdx % interval = 0 <;> simp [hkeep]
    · rw [ih4, stepFrame_fst_writtenFrames, stepFrame_fst_frameIdx]
      simp only [List.length_cons]
      rw [List.range'_succ, List.filter_cons]
      by_cases hkeep : s.frameIdx % interval = 0 <;> simp [hkeep] <;> omega

lemma runLoop_crashes (rect : Rect) (interval : ℕ) (fs : List Frame) :
    ∀ s : LoopState, s.frameIdx < 30 → 30 ≤ s.frameIdx + fs.length →
      (runLoop rect interval 0 fs s).2 = true ∧
      (runLoop rect interval 0 fs s).1.events = s.events := by
  induction fs with
  | nil =>
    intro s h1 h2
    exact absurd h2 (by simp; omega)
  | cons f fs ih =>
    intro s h1 h2
    rw [runLoop, stepFrame_of_total_zero]
    by_cases h30 : (s.frameIdx + 1) % 30 = 0
    · rw [decide_eq_true h30]
      simp [writeStep_events]
    · rw [decide_eq_false h30]
      simp only [if_neg Bool.false_ne_true]
      have hlt : (s.frameIdx + 1) < 30 := by omega
      have hge : 30 ≤ (s.frameIdx + 1) + fs.length := by
        simp [List.length_cons] at h2
        omega
      have := ih { writeStep rect interval s f with frameIdx := s.frameIdx + 1 }
        (by simpa using hlt) (by simpa using hge)
      simpa [writeStep_events] using this

lemma runLoop_written_mem (rect : Rect) (interval : ℕ) (total : ℤ)
    (fs : List Frame) :
    ∀ (s : LoopState) (g : Frame),
      g ∈ (runLoop rect interval total fs s).1.written →
      g ∈ s.written ∨ ∃ f, f ∈ fs ∧ g = cropFrame rect f := by
  induction fs with
  | nil =>
    intro s g hg
    exact Or.inl (by simpa [runLoop] using hg)
  | cons f fs ih =>
    intro s g hg
    rw [runLoop] at hg
    by_cases hsnd : (stepFrame rect interval total s f).2
    · rw [if_pos hsnd] at hg
      rw [stepFrame_fst_written] at hg
      rcases List.mem_append.mp hg with hmem | hmem
      · exact Or.inl hmem
      · refine Or.inr ⟨f, List.mem_cons_self f fs, ?_⟩
        by_cases hkeep : s.frameIdx % interval = 0
        · rw [if_pos hkeep] at hmem
          simpa using hmem
        · rw [if_neg hkeep] at hmem
          exact absurd hmem (by simp)
    · rw [if_neg hsnd] at hg
      rcases ih (stepFrame rect interval total s f).1 g hg with hmem | hmem
      · rw [stepFrame_fst_written] at hmem
        rcases List.mem_append.mp hmem with hmem2 | hmem2
        · exact Or.inl hmem2
        · refine Or.inr ⟨f, List.mem_cons_self f fs, ?_⟩
          by_cases hkeep : s.frameIdx % interval = 0
          · rw [if_pos hkeep] at hmem2
            simpa using hmem2
          · rw [if_neg hkeep] at hmem2
            exact absurd hmem2 (by simp)
      · obtain ⟨f0, hf0, hgf⟩ := hmem
        exact Or.inr ⟨f0, List.mem_cons_of_mem f hf0, hgf⟩

lemma cropFrame_dims (r : Rect) (W H : ℕ) (f : Frame)
    (hlen : f.length = H) (hrow : ∀ row ∈ f, row.length = W)
    (h0x : 0 ≤ r.x1) (hxx : r.x1 ≤ r.x2) (hx2 : r.x2 ≤ (W : ℤ))
    (h0y : 0 ≤ r.y1) (hyy : r.y1 ≤ r.y2) (hy2 : r.y2 ≤ (H : ℤ)) :
    (cropFrame r f).length = (r.y2 - r.y1).toNat ∧
    ∀ row ∈ cropFrame r f, row.length = (r.x2 - r.x1).toNat := by
  constructor
  · simp only [cropFrame, List.length_map, List.length_take, List.length_drop,
      hlen]
    omega
  · intro row hmem
    simp only [cropFrame, List.mem_map] at hmem
    obtain ⟨row0, hrow0, rfl⟩ := hmem
    have hin : row0 ∈ f := List.mem_of_mem_drop (List.mem_of_mem_take hrow0)
    have hw := hrow row0 hin
    simp only [List.length_take, List.length_drop, hw]
    omega

lemma normalizeRect_le (r : Rect) (h0x : 0 ≤ r.x1) (hxx : r.x1 ≤ r.x2)
    (h0y : 0 ≤ r.y1) (hyy : r.y1 ≤ r.y2) :
    (normalizeRect r).x1 = r.x1 ∧ (normalizeRect r).y1 = r.y1 ∧
    r.x1 ≤ (normalizeRect r).x2 ∧ (normalizeRect r).x2 ≤ r.x2 ∧
    r.y1 ≤ (normalizeRect r).y2 ∧ (normalizeRect r).y2 ≤ r.y2 := by
  unfold normalizeRect
  by_cases h1 : (r.x2 - r.x1) % 2 = 0 <;> by_cases h2 : (r.y2 - r.y1) % 2 = 0 <;>
    simp [h1, h2] <;> omega

lemma doCrop_writerSize (r : Rect) (src : Source) (wo : Bool) :
    (doCrop r src wo).writerSize =
      ((normalizeRect r).x2 - (normalizeRect r).x1,
       (normalizeRect r).y2 - (normalizeRect r).y1) := by
  unfold doCrop
  split
  · rfl
  · split
    · rfl
    · split <;> rfl

lemma doCrop_written_of_open (r : Rect) (src : Source) (wo : Bool)
    (hop : src.opened = true) (hwo : wo = true) :
    (doCrop r src wo).written = (cropRun r src).1.written := by
  unfold doCrop
  rw [if_neg (by simp [hop]), if_neg (by simp [hwo])]
  split <;> rfl

lemma doCrop_writtenIdxs_of_open (r : Rect) (src : Source) (wo : Bool)
    (hop : src.opened = true) (hwo : wo = true) :
    (doCrop r src wo).writtenIdxs = (cropRun r src).1.writtenIdxs := by
  unfold doCrop
  rw [if_neg (by simp [hop]), if_neg (by simp [hwo])]
  split <;> rfl

lemma doCrop_finalFrameIdx_of_open (r : Rect) (src : Source) (wo : Bool)
    (hop : src.opened = true) (hwo : wo = true) :
    (doCrop r src wo).finalFrameIdx = (cropRun r src).1.frameIdx := by
  unfold doCrop
  rw [if_neg (by simp [hop]), if_neg (by simp [hwo])]
  split <;> rfl

lemma doCrop_events_of_open (r : Rect) (src : Source) (wo : Bool)
    (hop : src.opened = true) (hwo : wo = true) :
    (doCrop r src wo).events = (cropRun r src).1.events := by
  unfold doCrop
  rw [if_neg (by simp [hop]), if_neg (by simp [hwo])]
  split <;> rfl

lemma doCrop_outcome_of_no_crash (r : Rect) (src : Source) (wo : Bool)
    (hop : src.opened = true) (hwo : wo = true)
    (hnc : (cropRun r src).2 = false) :
    (doCrop r src wo).outcome = .done (cropRun r src).1.writtenFrames ∧
    (doCrop r src wo).doneFired = true := by
  unfold doCrop
  rw [if_neg (by simp [hop]), if_neg (by simp [hwo]), if_neg (by simp [hnc])]
  exact ⟨rfl, rfl⟩

lemma doCrop_outcome_of_crash (r : Rect) (src : Source) (wo : Bool)
    (hop : src.opened = true) (hwo : wo = true)
    (hc : (cropRun r src).2 = true) :
    (doCrop r src wo).outcome = .crashed ∧
    (doCrop r src wo).doneFired = false := by
  unfold doCrop
  rw [if_neg (by simp [hop]), if_neg (by simp [hwo]), if_pos hc]
  exact ⟨rfl, rfl⟩

/-! ## Claims about the coordinate mapper and the selection lifecycle -/

/-- C6: for every display-space input point, every positive scale and all
offsets, `_canvas_to_image` returns integer coordinates inside
`[0, w] × [0, h]`. -/
theorem c6_toSource_in_bounds (t : DisplayTransform) (w h : ℕ) (cx cy : ℚ)
    (hs : 0 < t.scale) :
    0 ≤ (canvasToImage t w h cx cy).1 ∧
    (canvasToImage t w h cx cy).1 ≤ (w : ℤ) ∧
    0 ≤ (canvasToImage t w h cx cy).2 ∧
    (canvasToImage t w h cx cy).2 ≤ (h : ℤ) := by
  simp only [canvasToImage]
  exact ⟨(clamp_bounds _ w).1, (clamp_bounds _ w).2,
         (clamp_bounds _ h).1, (clamp_bounds _ h).2⟩

/-- Witness for C6: a point far outside a 100 × 50 viewport still maps into
bounds. -/
theorem c6_toSource_in_bounds_witness :
    (0 : ℚ) < 2 ∧
    (0 ≤ (canvasToImage ⟨2, 3, 4⟩ 100 50 (-1000) 9999).1 ∧
     (canvasToImage ⟨2, 3, 4⟩ 100 50 (-1000) 9999).1 ≤ (100 : ℤ) ∧
     0 ≤ (canvasToImage ⟨2, 3, 4⟩ 100 50 (-1000) 9999).2 ∧
     (canvasToImage ⟨2, 3, 4⟩ 100 50 (-1000) 9999).2 ≤ (50 : ℤ)) :=
  ⟨by norm_num, c6_toSource_in_bounds ⟨2, 3, 4⟩ 100 50 (-1000) 9999 (by norm_num)⟩

/-- C7 counterexample: with `scale = 10` (a small video upscaled into a
large canvas) the display point `(5, 5)` maps inside the frame bounds, but
the `_canvas_to_image` / `_image_to_canvas` round trip returns `(0, 0)`,
an error of 5 display units — more than one unit. -/
theorem c7_one_unit_counterexample :
    ((0 : ℚ) ≤ ((5 : ℚ) - 0) / 10 ∧ ((5 : ℚ) - 0) / 10 ≤ (100 : ℚ)) ∧
    canvasToImage ⟨10, 0, 0⟩ 100 100 5 5 = (0, 0) ∧
    imageToCanvas ⟨10, 0, 0⟩ 0 0 = (0, 0) ∧
    1 < |(5 : ℚ) -
        (imageToCanvas ⟨10, 0, 0⟩ (canvasToImage ⟨10, 0, 0⟩ 100 100 5 5).1
          (canvasToImage ⟨10, 0, 0⟩ 100 100 5 5).2).1| := by
  refine ⟨⟨by norm_num, by norm_num⟩, ?_, ?_, ?_⟩ <;>
    norm_num [canvasToImage, imageToCanvas, truncQ]

/-- C7 (amended): for a display point that maps inside the frame bounds,
the round trip recovers each coordinate to within one source-pixel of
rounding error, i.e. within `scale` display units (the result never
overshoots the original). -/
theorem c7_roundtrip_within_scale (t : DisplayTransform) (w h : ℕ)
    (cx cy : ℚ) (hs : 0 < t.scale)
    (hx0 : 0 ≤ (cx - t.offsetX) / t.scale)
    (hxw : (cx - t.offsetX) / t.scale ≤ (w : ℚ))
    (hy0 : 0 ≤ (cy - t.offsetY) / t.scale)
    (hyh : (cy - t.offsetY) / t.scale ≤ (h : ℚ)) :
    cx - t.scale <
      (imageToCanvas t (canvasToImage t w h cx cy).1
        (canvasToImage t w h cx cy).2).1 ∧
    (imageToCanvas t (canvasToImage t w h cx cy).1
        (canvasToImage t w h cx cy).2).1 ≤ cx ∧
    cy - t.scale <
      (imageToCanvas t (canvasToImage t w h cx cy).1
        (canvasToImage t w h cx cy).2).2 ∧
    (imageToCanvas t (canvasToImage t w h cx cy).1
        (canvasToImage t w h cx cy).2).2 ≤ cy := by
  simp only [canvasToImage, imageToCanvas]
  exact ⟨(roundtrip_coord t.scale cx t.offsetX w hs hx0 hxw).1,
         (roundtrip_coord t.scale cx t.offsetX w hs hx0 hxw).2,
         (roundtrip_coord t.scale cy t.offsetY h hs hy0 hyh).1,
         (roundtrip_coord t.scale cy t.offsetY h hs hy0 hyh).2⟩

/-- Witness for the amended C7 at `scale = 1/2`, offsets `(10, 20)`. -/
theorem c7_roundtrip_within_scale_witness :
    ((0 : ℚ) < (1 : ℚ) / 2 ∧
      0 ≤ ((30 : ℚ) - 10) / (1 / 2) ∧ ((30 : ℚ) - 10) / (1 / 2) ≤ (100 : ℚ) ∧
      0 ≤ ((40 : ℚ) - 20) / (1 / 2) ∧ ((40 : ℚ) - 20) / (1 / 2) ≤ (100 : ℚ)) ∧
    ((30 : ℚ) - 1 / 2 <
        (imageToCanvas ⟨1 / 2, 10, 20⟩
          (canvasToImage ⟨1 / 2, 10, 20⟩ 100 100 30 40).1
          (canvasToImage ⟨1 / 2, 10, 20⟩ 100 100 30 40).2).1 ∧
      (imageToCanvas ⟨1 / 2, 10, 20⟩
          (canvasToImage ⟨1 / 2, 10, 20⟩ 100 100 30 40).1
          (canvasToImage ⟨1 / 2, 10, 20⟩ 100 100 30 40).2).1 ≤ 30 ∧
      (40 : ℚ) - 1 / 2 <
        (imageToCanvas ⟨1 / 2, 10, 20⟩
          (canvasToImage ⟨1 / 2, 10, 20⟩ 100 100 30 40).1
          (canvasToImage ⟨1 / 2, 10, 20⟩ 100 100 30 40).2).2 ∧
      (imageToCanvas ⟨1 / 2, 10, 20⟩
          (canvasToImage ⟨1 / 2, 10, 20⟩ 100 100 30 40).1
          (canvasToImage ⟨1 / 2, 10, 20⟩ 100 100 30 40).2).2 ≤ 40) :=
  ⟨⟨by norm_num, by norm_num, by norm_num, by norm_num, by norm_num⟩,
   c7_roundtrip_within_scale ⟨1 / 2, 10, 20⟩ 100 100 30 40 (by norm_num)
     (by norm_num) (by norm_num) (by norm_num) (by norm_num)⟩

/-- C5: a completed drag whose mapped source rectangle is narrower or
shorter than 10 pixels never yields a stored selection: the rectangle is
discarded, export stays disabled, and the too-small notice is emitted. -/
theorem c5_small_drag_rejected (t : DisplayTransform) (w h : ℕ)
    (sx sy ux uy : ℚ)
    (hsmall :
      max (canvasToImage t w h sx sy).1 (canvasToImage t w h ux uy).1 -
          min (canvasToImage t w h sx sy).1 (canvasToImage t w h ux uy).1 < 10 ∨
      max (canvasToImage t w h sx sy).2 (canvasToImage t w h ux uy).2 -
          min (canvasToImage t w h sx sy).2 (canvasToImage t w h ux uy).2 < 10) :
    (onMouseUp t w h sx sy ux uy).cropRect = none ∧
    (onMouseUp t w h sx sy ux uy).exportEnabled = false ∧
    (onMouseUp t w h sx sy ux uy).message = .tooSmall := by
  simp only [onMouseUp]
  rw [if_pos hsmall]
  exact ⟨rfl, rfl, rfl⟩

/-- Witness for C5: a 5 × 20 pixel drag is rejected. -/
theorem c5_small_drag_rejected_witness :
    (max (canvasToImage ⟨1, 0, 0⟩ 100 100 0 0).1
          (canvasToImage ⟨1, 0, 0⟩ 100 100 5 20).1 -
        min (canvasToImage ⟨1, 0, 0⟩ 100 100 0 0).1
          (canvasToImage ⟨1, 0, 0⟩ 100 100 5 20).1 < 10 ∨
      max (canvasToImage ⟨1, 0, 0⟩ 100 100 0 0).2
          (canvasToImage ⟨1, 0, 0⟩ 100 100 5 20).2 -
        min (canvasToImage ⟨1, 0, 0⟩ 100 100 0 0).2
          (canvasToImage ⟨1, 0, 0⟩ 100 100 5 20).2 < 10) ∧
    ((onMouseUp ⟨1, 0, 0⟩ 100 100 0 0 5 20).cropRect = none ∧
     (onMouseUp ⟨1, 0, 0⟩ 100 100 0 0 5 20).exportEnabled = false ∧
     (onMouseUp ⟨1, 0, 0⟩ 100 100 0 0 5 20).message = .tooSmall) :=
  ⟨by left; norm_num [canvasToImage, truncQ],
   c5_small_drag_rejected ⟨1, 0, 0⟩ 100 100 0 0 5 20
     (by left; norm_num [canvasToImage, truncQ])⟩

/-- C4: normalization of a valid selection rectangle (the `Valid` state
requires both dimensions at least 10) yields even dimensions, never
increases either dimension, decrements `x2`/`y2` by exactly 1 exactly when
the corresponding dimension is odd, and preserves `x1 < x2`, `y1 < y2`. -/
theorem c4_normalize_even (r : Rect) (hx : r.x1 < r.x2) (hy : r.y1 < r.y2)
    (hw : 10 ≤ r.x2 - r.x1) (hh : 10 ≤ r.y2 - r.y1) :
    (normalizeRect r).x1 = r.x1 ∧ (normalizeRect r).y1 = r.y1 ∧
    ((normalizeRect r).x2 - (normalizeRect r).x1) % 2 = 0 ∧
    ((normalizeRect r).y2 - (normalizeRect r).y1) % 2 = 0 ∧
    (normalizeRect r).x2 ≤ r.x2 ∧ (normalizeRect r).y2 ≤ r.y2 ∧
    ((normalizeRect r).x2 =
      if (r.x2 - r.x1) % 2 = 0 then r.x2 else r.x2 - 1) ∧
    ((normalizeRect r).y2 =
      if (r.y2 - r.y1) % 2 = 0 then r.y2 else r.y2 - 1) ∧
    (normalizeRect r).x1 < (normalizeRect r).x2 ∧
    (normalizeRect r).y1 < (normalizeRect r).y2 := by
  by_cases h1 : (r.x2 - r.x1) % 2 = 0 <;> by_cases h2 : (r.y2 - r.y1) % 2 = 0 <;>
    simp [normalizeRect, h1, h2] <;> omega

/-- Witness for C4 at the rectangle of the end-to-end scenario,
`(10, 10)-(109, 109)`. -/
theorem c4_normalize_even_witness :
    ((10 : ℤ) < 109 ∧ (10 : ℤ) < 109 ∧
      (10 : ℤ) ≤ 109 - 10 ∧ (10 : ℤ) ≤ 109 - 10) ∧
    ((normalizeRect ⟨10, 10, 109, 109⟩).x2 = 108 ∧
      (normalizeRect ⟨10, 10, 109, 109⟩).y2 = 108 ∧
      ((normalizeRect ⟨10, 10, 109, 109⟩).x2 -
        (normalizeRect ⟨10, 10, 109, 109⟩).x1) % 2 = 0) :=
  ⟨⟨by decide, by decide, by decide, by decide⟩, by
    have h := c4_normalize_even ⟨10, 10, 109, 109⟩ (by decide) (by decide)
      (by decide) (by decide)
    exact ⟨by decide, by decide, h.2.2.1⟩⟩

/-! ## Claims about the frame sampler -/

/-- C2 counterexample: Python 3 `round` is round-half-to-even, so for
`sourceFps = 25` the code computes interval `round(2.5) = 2`, while the
claim (pinning round half away from zero and asserting interval 3)
predicts `3`. -/
theorem c2_half_away_counterexample :
    frameInterval 25 = 2 ∧ max 1 (roundHalfAwayFromZero (25 / 10)) = 3 :=
  ⟨by norm_num [frameInterval, pyRound],
   by norm_num [roundHalfAwayFromZero]⟩

/-- C2 (amended): the interval is `max(1, round(sourceFps / 10))` with
round half to even (Python 3 `round`); it is always at least 1;
`sourceFps = 30` gives 3 and `sourceFps = 25` gives 2. -/
theorem c2_interval_formula (fps : ℚ) (hpos : 0 < fps) :
    frameInterval fps = max 1 (pyRound (fps / 10)) ∧
    1 ≤ frameInterval fps ∧
    frameInterval 30 = 3 ∧ frameInterval 25 = 2 :=
  ⟨rfl, le_max_left _ _, by norm_num [frameInterval, pyRound],
   by norm_num [frameInterval, pyRound]⟩

/-- Witness for C2 at `sourceFps = 30`. -/
theorem c2_interval_formula_witness :
    (0 : ℚ) < 30 ∧
    (frameInterval 30 = max 1 (pyRound (30 / 10)) ∧
      1 ≤ frameInterval 30 ∧ frameInterval 30 = 3 ∧ frameInterval 25 = 2) :=
  ⟨by norm_num, c2_interval_formula 30 (by norm_num)⟩

/-! ## Claims about the cropping pipeline -/

/-- C1 counterexample: for a zero-frame but openable source, `_do_crop`
does not fail — the writer is opened (creating the output file), zero
frames are written, and the completion callback fires. -/
theorem c1_zero_frames_counterexample :
    (doCrop ⟨10, 10, 98, 98⟩
      { opened := true, frames := [], reportedTotal := 0, fps := 30 }
      true).outcome = .done 0 ∧
    (doCrop ⟨10, 10, 98, 98⟩
      { opened := true, frames := [], reportedTotal := 0, fps := 30 }
      true).outputCreated = true ∧
    (doCrop ⟨10, 10, 98, 98⟩
      { opened := true, frames := [], reportedTotal := 0, fps := 30 }
      true).doneFired = true :=
  ⟨rfl, rfl, rfl⟩

/-- C1 (amended): an unopenable source halts the pipeline before any
writer is created — no output file, no completion; but a zero-frame
openable source is not detected: the writer opens (creating the output
file), zero frames are written and the completion callback fires. -/
theorem c1_source_open (r : Rect) (src : Source) (wo : Bool) :
    (src.opened = false →
      (doCrop r src wo).outcome = .sourceOpenMsg ∧
      (doCrop r src wo).writerAttempted = false ∧
      (doCrop r src wo).outputCreated = false ∧
      (doCrop r src wo).doneFired = false) ∧
    (src.opened = true → wo = true → src.frames = [] →
      (doCrop r src wo).outcome = .done 0 ∧
      (doCrop r src wo).outputCreated = true ∧
      (doCrop r src wo).doneFired = true) := by
  constructor
  · intro hop
    unfold doCrop
    rw [if_pos hop]
    exact ⟨rfl, rfl, rfl, rfl⟩
  · intro hop hwo hfr
    have hcr : cropRun r src =
        ({ frameIdx := 0, writtenFrames := 0, writtenIdxs := [], written := []
           events := [] }, false) := by
      unfold cropRun
      rw [hfr]
      rfl
    unfold doCrop
    rw [if_neg (by simp [hop]), if_neg (by simp [hwo]), hcr]
    simp

/-- Witness for C1 at a closed source that does not open, and at a closed
zero-frame source that does. -/
theorem c1_source_open_witness :
    (({ opened := false, frames := [], reportedTotal := 0,
        fps := 30 } : Source).opened = false ∧
      (doCrop ⟨0, 0, 10, 10⟩
        { opened := false, frames := [], reportedTotal := 0, fps := 30 }
        true).outcome = .sourceOpenMsg ∧
      (doCrop ⟨0, 0, 10, 10⟩
        { opened := false, frames := [], reportedTotal := 0, fps := 30 }
        true).outputCreated = false) ∧
    (({ opened := true, frames := [], reportedTotal := 0,
        fps := 30 } : Source).opened = true ∧
      (doCrop ⟨0, 0, 10, 10⟩
        { opened := true, frames := [], reportedTotal := 0, fps := 30 }
        true).outcome = .done 0 ∧
      (doCrop ⟨0, 0, 10, 10⟩
        { opened := true, frames := [], reportedTotal := 0, fps := 30 }
        true).doneFired = true) :=
  ⟨⟨rfl, ((c1_source_open ⟨0, 0, 10, 10⟩
      { opened := false, frames := [], reportedTotal := 0, fps := 30 }
      true).1 rfl).1,
    ((c1_source_open ⟨0, 0, 10, 10⟩
      { opened := false, frames := [], reportedTotal := 0, fps := 30 }
      true).1 rfl).2.2.1⟩,
   ⟨rfl, ((c1_source_open ⟨0, 0, 10, 10⟩
      { opened := true, frames := [], reportedTotal := 0, fps := 30 }
      true).2 rfl rfl rfl).1,
    ((c1_source_open ⟨0, 0, 10, 10⟩
      { opened := true, frames := [], reportedTotal := 0, fps := 30 }
      true).2 rfl rfl rfl).2.2⟩⟩

/-- C3: during a run over an opened source (with a nonzero reported total,
so the progress update cannot crash), a frame at zero-based index `i` is
written iff `i mod interval = 0`, the frame index is incremented for every
frame read, and the run completes with one written frame per kept index;
the 90-frame 30 fps scenario keeps exactly `0, 3, ..., 87` — 30 frames. -/
theorem c3_sampling (r : Rect) (src : Source) (wo : Bool)
    (hop : src.opened = true) (hwo : wo = true)
    (ht : src.reportedTotal ≠ 0) :
    ((doCrop r src wo).writtenIdxs =
        (List.range src.frames.length).filter
          (fun i => i % (frameInterval src.fps).toNat == 0) ∧
      (doCrop r src wo).finalFrameIdx = src.frames.length ∧
      (doCrop r src wo).outcome =
        .done (((List.range src.frames.length).filter
          (fun i => i % (frameInterval src.fps).toNat == 0)).length)) ∧
    ((doCrop ⟨10, 10, 109, 109⟩
        { opened := true, frames := List.replicate 90 [], reportedTotal := 90,
          fps := 30 } true).writtenIdxs =
        [0, 3, 6, 9, 12, 15, 18, 21, 24, 27, 30, 33, 36, 39, 42, 45, 48, 51,
         54, 57, 60, 63, 66, 69, 72, 75, 78, 81, 84, 87] ∧
      (doCrop ⟨10, 10, 109, 109⟩
        { opened := true, frames := List.replicate 90 [], reportedTotal := 90,
          fps := 30 } true).finalFrameIdx = 90 ∧
      (doCrop ⟨10, 10, 109, 109⟩
        { opened := true, frames := List.replicate 90 [], reportedTotal := 90,
          fps := 30 } true).outcome = .done 30) := by
  have key : ∀ (r0 : Rect) (src0 : Source) (wo0 : Bool),
      src0.opened = true → wo0 = true → src0.reportedTotal ≠ 0 →
      (doCrop r0 src0 wo0).writtenIdxs =
        (List.range src0.frames.length).filter
          (fun i => i % (frameInterval src0.fps).toNat == 0) ∧
      (doCrop r0 src0 wo0).finalFrameIdx = src0.frames.length ∧
      (doCrop r0 src0 wo0).outcome =
        .done (((List.range src0.frames.length).filter
          (fun i => i % (frameInterval src0.fps).toNat == 0)).length) := by
    intro r0 src0 wo0 hop0 hwo0 ht0
    obtain ⟨h1, h2, h3, h4⟩ := runLoop_char (normalizeRect r0)
      (frameInterval src0.fps).toNat src0.reportedTotal ht0 src0.frames
      { frameIdx := 0, writtenFrames := 0, writtenIdxs := [], written := []
        events := [] }
    have hcr2 : (cropRun r0 src0).2 = false := h1
    refine ⟨?_, ?_, ?_⟩
    · rw [doCrop_writtenIdxs_of_open r0 src0 wo0 hop0 hwo0]
      unfold cropRun
      rw [h3, List.range_eq_range']
      simp
    · rw [doCrop_finalFrameIdx_of_open r0 src0 wo0 hop0 hwo0]
      unfold cropRun
      rw [h2]
      simp
    · rw [(doCrop_outcome_of_no_crash r0 src0 wo0 hop0 hwo0 hcr2).1]
      unfold cropRun
      rw [h4, List.range_eq_range']
      simp
  refine ⟨key r src wo hop hwo ht, ?_⟩
  obtain ⟨k1, k2, k3⟩ := key ⟨10, 10, 109, 109⟩
    { opened := true, frames := List.replicate 90 [], reportedTotal := 90,
      fps := 30 } true rfl rfl (by norm_num)
  have hint3 : frameInterval (30 : ℚ) = 3 := by
    norm_num [frameInterval, pyRound]
  have hint : (frameInterval (30 : ℚ)).toNat = 3 := by
    rw [hint3]
    rfl
  rw [k1, k2, k3]
  have hlen : (List.replicate 90 ([] : Frame)).length = 90 :=
    List.length_replicate 90 []
  refine ⟨?_, by rw [hlen], ?_⟩
  · rw [hlen]
    show (List.range 90).filter (fun i => i % (frameInterval (30 : ℚ)).toNat == 0) = _
    rw [hint]
    decide
  · rw [hlen]
    show CropOutcome.done ((List.range 90).filter
        (fun i => i % (frameInterval (30 : ℚ)).toNat == 0)).length = _
    rw [hint]
    decide

/-- Witness for C3 on a closed 2-frame source with a nonzero reported
total. -/
theorem c3_sampling_witness :
    (({ opened := true, frames := [[], []], reportedTotal := 2,
        fps := 10 } : Source).reportedTotal ≠ 0) ∧
    ((doCrop ⟨0, 0, 10, 10⟩
        { opened := true, frames := [[], []], reportedTotal := 2, fps := 10 }
        true).writtenIdxs =
      (List.range
        ([[], []] : List Frame).length).filter
          (fun i => i % (frameInterval (10 : ℚ)).toNat == 0)) :=
  ⟨by norm_num,
   ((c3_sampling ⟨0, 0, 10, 10⟩
      { opened := true, frames := [[], []], reportedTotal := 2, fps := 10 }
      true rfl rfl (by norm_num)).1).1⟩

/-- C8 (code bug): when the container reports a zero total frame count but
the stream still yields at least 30 frames, the progress update divides by
zero: the worker crashes at frame index 30 — no progress event is emitted
(indeterminate or otherwise) and the completion callback never fires. -/
theorem c8_zero_total_crash (r : Rect) (src : Source) (wo : Bool)
    (hop : src.opened = true) (hwo : wo = true)
    (ht : src.reportedTotal = 0) (hn : 30 ≤ src.frames.length) :
    (doCrop r src wo).outcome = .crashed ∧
    (doCrop r src wo).events = [] ∧
    (doCrop r src wo).doneFired = false := by
  have hc := runLoop_crashes (normalizeRect r) (frameInterval src.fps).toNat
    src.frames
    { frameIdx := 0, writtenFrames := 0, writtenIdxs := [], written := []
      events := [] }
    (by simp) (by simpa using hn)
  have hcrash : (cropRun r src).2 = true ∧ (cropRun r src).1.events = [] := by
    unfold cropRun
    rw [ht]
    exact ⟨hc.1, by simpa using hc.2⟩
  obtain ⟨ho, hdf⟩ := doCrop_outcome_of_crash r src wo hop hwo hcrash.1
  refine ⟨ho, ?_, hdf⟩
  rw [doCrop_events_of_open r src wo hop hwo]
  exact hcrash.2

/-- Witness for C8 on a closed 30-frame source whose container reports a
total of zero. -/
theorem c8_zero_total_crash_witness :
    (({ opened := true, frames := List.replicate 30 [], reportedTotal := 0,
        fps := 30 } : Source).reportedTotal = 0 ∧
      30 ≤ ({ opened := true, frames := List.replicate 30 [],
              reportedTotal := 0, fps := 30 } : Source).frames.length) ∧
    ((doCrop ⟨0, 0, 10, 10⟩
        { opened := true, frames := List.replicate 30 [], reportedTotal := 0,
          fps := 30 } true).outcome = .crashed ∧
      (doCrop ⟨0, 0, 10, 10⟩
        { opened := true, frames := List.replicate 30 [], reportedTotal := 0,
          fps := 30 } true).events = [] ∧
      (doCrop ⟨0, 0, 10, 10⟩
        { opened := true, frames := List.replicate 30 [], reportedTotal := 0,
          fps := 30 } true).doneFired = false) :=
  ⟨⟨rfl, by simp⟩,
   c8_zero_total_crash ⟨0, 0, 10, 10⟩
     { opened := true, frames := List.replicate 30 [], reportedTotal := 0,
       fps := 30 } true rfl rfl rfl (by simp)⟩

/-- C10: when the selection rectangle lies inside the frame bounds (as
`_canvas_to_image` guarantees) and every source frame has those
dimensions, every frame written to the destination has exactly the
normalized crop height and width the writer was opened with. -/
theorem c10_written_dims (r : Rect) (W H : ℕ) (src : Source) (wo : Bool)
    (h0x : 0 ≤ r.x1) (hxx : r.x1 ≤ r.x2) (hx2 : r.x2 ≤ (W : ℤ))
    (h0y : 0 ≤ r.y1) (hyy : r.y1 ≤ r.y2) (hy2 : r.y2 ≤ (H : ℤ))
    (hf : ∀ f ∈ src.frames, f.length = H ∧ ∀ row ∈ f, row.length = W) :
    ∀ g ∈ (doCrop r src wo).written,
      g.length = ((doCrop r src wo).writerSize.2).toNat ∧
      ∀ row ∈ g, row.length = ((doCrop r src wo).writerSize.1).toNat := by
  intro g hg
  rw [doCrop_writerSize]
  by_cases hop : src.opened = true
  · by_cases hwo : wo = true
    · rw [doCrop_written_of_open r src wo hop hwo] at hg
      unfold cropRun at hg
      rcases runLoop_written_mem (normalizeRect r)
          (frameInterval src.fps).toNat src.reportedTotal src.frames _ g hg
        with hmem | ⟨f0, hf0, rfl⟩
      · exact absurd hmem (by simp)
      · obtain ⟨hb1, hb2, hb3, hb4, hb5, hb6⟩ := normalizeRect_le r h0x hxx h0y hyy
        exact cropFrame_dims (normalizeRect r) W H f0 (hf f0 hf0).1
          (hf f0 hf0).2 (by omega) (by omega) (by omega) (by omega) (by omega)
          (by omega)
    · have hwo' : wo = false := by revert hwo; cases wo <;> simp
      unfold doCrop at hg
      rw [if_neg (by simp [hop]), if_pos hwo'] at hg
      exact absurd hg (by simp)
  · have hop' : src.opened = false := by revert hop; cases src.opened <;> simp
    unfold doCrop at hg
    rw [if_pos hop'] at hg
    exact absurd hg (by simp)

/-- Witness for C10 on a closed single-frame 2 × 2 source cropped by the
full-frame rectangle. -/
theorem c10_written_dims_witness :
    [[1, 1], [1, 1]] ∈ (doCrop ⟨0, 0, 2, 2⟩
      { opened := true, frames := [[[1, 1], [1, 1]]], reportedTotal := 1,
        fps := 10 } true).written ∧
    ([[1, 1], [1, 1]] : Frame).length =
      ((doCrop ⟨0, 0, 2, 2⟩
        { opened := true, frames := [[[1, 1], [1, 1]]], reportedTotal := 1,
          fps := 10 } true).writerSize.2).toNat := by
  have hmem : [[1, 1], [1, 1]] ∈ (doCrop ⟨0, 0, 2, 2⟩
      { opened := true, frames := [[[1, 1], [1, 1]]], reportedTotal := 1,
        fps := 10 } true).written := by decide
  exact ⟨hmem,
    (c10_written_dims ⟨0, 0, 2, 2⟩ 2 2
      { opened := true, frames := [[[1, 1], [1, 1]]], reportedTotal := 1,
        fps := 10 } true (by decide) (by decide) (by decide) (by decide)
      (by decide) (by decide) (by decide) [[1, 1], [1, 1]] hmem).1⟩

end CropVideo
